import Mathlib

/-!
Shallow embedding of `workitem/link/type.go` from almighty-core:
the `WorkItemLinkType` record, its structural equality, the creation and
topology validation rules, and the model/API conversion functions.

Go machine types are modelled as follows: `satoriuuid.UUID` as `Nat`
(`satoriuuid.Nil` is `0`, `satoriuuid.Equal` is equality on the bytes, hence
equality on `Nat`), `*string` as `Option String`, `int` as `Int`.
-/

set_option autoImplicit false

namespace AlmightyLink

/-- UUIDs are opaque identifiers compared bytewise; modelled as `Nat`. -/
abbrev UUID := Nat

/-- `satoriuuid.Nil`, the all-zero UUID. -/
def uuidNil : UUID := 0

/-- Modelled from the spec: the `errors` package (not under `src/`) provides
`NewBadParameterError(name, value)` with an optional `.Expected(expected)`
value set; per §7 a BadParameter error "always identifies the offending field
name and, where applicable, the expected value set". The attached parameter
value is rendered as a string (`"<nil>"` for Go's `nil`). -/
structure BadParameterError where
  param : String
  value : String
  expected : Option String := none
deriving Repr, DecidableEq

/-- `errors.NewBadParameterError(name, value)` (value already rendered). -/
def NewBadParameterError (param value : String) : BadParameterError :=
  { param := param, value := value }

/-- `.Expected(expected)` on a BadParameter error. -/
def BadParameterError.Expected (e : BadParameterError) (exp : String) : BadParameterError :=
  { e with expected := some exp }

/-- Modelled from the spec: `gormsupport.Lifecycle` (not under `src/`) carries
creation/update/deletion timestamps; §4.1 treats them as "opaque
equal-comparable values", so they are modelled as an opaque triple whose
`Equal` is structural equality. -/
structure Lifecycle where
  createdAt : Nat
  updatedAt : Nat
  deletedAt : Option Nat
deriving Repr, DecidableEq

/-- Modelled from the spec: `gormsupport.Lifecycle.Equal` compares the
timestamps as opaque equal-comparable values. -/
def Lifecycle.Equal (l r : Lifecycle) : Bool :=
  decide (l = r)

-- Topology constants (type.go lines 16-19).
def TopologyNetwork : String := "network"
def TopologyDirectedNetwork : String := "directed_network"
def TopologyDependency : String := "dependency"
def TopologyTree : String := "tree"

/-- `strPtrIsNilOrContentIsEqual`: true iff the two string pointers are both
nil or reference the same content (type.go lines 31-42). -/
def strPtrIsNilOrContentIsEqual (l r : Option String) : Bool :=
  match l, r with
  | none, some _ => false
  | some _, none => false
  | none, none => true
  | some a, some b => a == b

/-- `WorkItemLinkType` as stored in the db (type.go lines 45-67). -/
structure WorkItemLinkType where
  lifecycle : Lifecycle
  id : UUID
  name : String
  description : Option String
  version : Int
  topology : String
  sourceTypeID : UUID
  targetTypeID : UUID
  forwardName : String
  reverseName : String
  linkCategoryID : UUID
  spaceID : UUID
deriving Repr, DecidableEq

/-- `WorkItemLinkType.Equal` (type.go lines 74-116). The Go method takes a
`convert.Equaler` and returns false on a failed type assertion; the embedding
restricts to the `WorkItemLinkType` case. -/
def WorkItemLinkType.Equal (t other : WorkItemLinkType) : Bool :=
  if ¬ t.lifecycle.Equal other.lifecycle then false
  else if t.id ≠ other.id then false
  else if t.name ≠ other.name then false
  else if t.version ≠ other.version then false
  else if ¬ strPtrIsNilOrContentIsEqual t.description other.description then false
  else if t.topology ≠ other.topology then false
  else if t.sourceTypeID ≠ other.sourceTypeID then false
  else if t.targetTypeID ≠ other.targetTypeID then false
  else if t.forwardName ≠ other.forwardName then false
  else if t.reverseName ≠ other.reverseName then false
  else if t.linkCategoryID ≠ other.linkCategoryID then false
  else if t.spaceID ≠ other.spaceID then false
  else true

/-- `CheckValidTopology` (type.go lines 155-160). Note the source spells the
reported parameter name `"topolgy"`. -/
def CheckValidTopology (t : String) : Option BadParameterError :=
  if t ≠ TopologyNetwork ∧ t ≠ TopologyDirectedNetwork ∧ t ≠ TopologyDependency ∧ t ≠ TopologyTree then
    some ((NewBadParameterError "topolgy" t).Expected
      (TopologyNetwork ++ "|" ++ TopologyDirectedNetwork ++ "|" ++ TopologyDependency ++ "|" ++ TopologyTree))
  else
    none

/-- `CheckValidForCreation` (type.go lines 120-146); `none` means the Go
function returned `nil`. `errs.WithStack` only decorates the error with a
stack trace, so it is the identity on the error value. -/
def CheckValidForCreation (t : WorkItemLinkType) : Option BadParameterError :=
  if t.name = "" then some (NewBadParameterError "name" t.name)
  else if t.sourceTypeID = uuidNil then
    some (NewBadParameterError "source_type_name" (toString t.sourceTypeID))
  else if t.targetTypeID = uuidNil then
    some (NewBadParameterError "target_type_name" (toString t.targetTypeID))
  else if t.forwardName = "" then some (NewBadParameterError "forward_name" t.forwardName)
  else if t.reverseName = "" then some (NewBadParameterError "reverse_name" t.reverseName)
  else
    match CheckValidTopology t.topology with
    | some err => some err
    | none =>
      if t.linkCategoryID = uuidNil then
        some (NewBadParameterError "link_category_id" (toString t.linkCategoryID))
      else if t.spaceID = uuidNil then
        some (NewBadParameterError "space_id" (toString t.spaceID))
      else none

/-!
The external (REST/JSON-API) representation. The `app.*` structures are
generated code that is not under `src/`; they are modelled from the spec
(§6: "a partial-update representation where every attribute is optional;
... identifier references to related entities ... expressed as opaque
identifiers") and from their use in type.go. Relationship data identifiers
are opaque identifiers (the Go `Space.Data.ID` pointer is always taken from
an existing UUID, so it is modelled as an always-present identifier).
-/

/-- Modelled from the spec: `app.WorkItemLinkTypeAttributes`, every attribute
optional (absent = Go `nil` pointer). -/
structure WorkItemLinkTypeAttributes where
  name : Option String := none
  description : Option String := none
  version : Option Int := none
  forwardName : Option String := none
  reverseName : Option String := none
  topology : Option String := none
deriving Repr, DecidableEq

/-- Modelled from the spec: `app.RelationWorkItemLinkCategoryData`. -/
structure RelationWorkItemLinkCategoryData where
  type : String
  id : UUID
deriving Repr, DecidableEq

/-- Modelled from the spec: `app.RelationWorkItemLinkCategory`. -/
structure RelationWorkItemLinkCategory where
  data : Option RelationWorkItemLinkCategoryData := none
deriving Repr, DecidableEq

/-- Modelled from the spec: `app.RelationWorkItemTypeData`. -/
structure RelationWorkItemTypeData where
  type : String
  id : UUID
deriving Repr, DecidableEq

/-- Modelled from the spec: `app.RelationWorkItemType`. -/
structure RelationWorkItemType where
  data : Option RelationWorkItemTypeData := none
deriving Repr, DecidableEq

/-- Modelled from the spec: `app.GenericLinks` (only the self link is used
by type.go). -/
structure GenericLinks where
  self : Option String := none
deriving Repr, DecidableEq

/-- Modelled from the spec: `app.RelationSpacesData`. -/
structure RelationSpacesData where
  type : Option String := none
  id : UUID
deriving Repr, DecidableEq

/-- Modelled from the spec: `app.RelationSpaces`. -/
structure RelationSpaces where
  data : Option RelationSpacesData := none
  links : Option GenericLinks := none
deriving Repr, DecidableEq

/-- Modelled from the spec: `app.WorkItemLinkTypeRelationships`, every
relationship optional. -/
structure WorkItemLinkTypeRelationships where
  linkCategory : Option RelationWorkItemLinkCategory := none
  sourceType : Option RelationWorkItemType := none
  targetType : Option RelationWorkItemType := none
  space : Option RelationSpaces := none
deriving Repr, DecidableEq

/-- Modelled from the spec: `app.WorkItemLinkTypeData`. -/
structure WorkItemLinkTypeData where
  type : String
  id : Option UUID := none
  attributes : Option WorkItemLinkTypeAttributes := none
  relationships : Option WorkItemLinkTypeRelationships := none
deriving Repr, DecidableEq

/-- Modelled from the spec: `app.WorkItemLinkTypeSingle`. -/
structure WorkItemLinkTypeSingle where
  data : Option WorkItemLinkTypeData := none
deriving Repr, DecidableEq

/-- Modelled from the spec: JSON-API type tags for the external
representation; the defining constants live outside `src/`. Their exact
values are irrelevant to every claim because `ConvertLinkTypeToModel`
ignores the type tags. -/
def EndpointWorkItemTypes : String := "workitemtypes"

/-- Modelled from the spec: JSON-API type tag for link categories. -/
def EndpointWorkItemLinkCategories : String := "workitemlinkcategories"

/-- Modelled from the spec: JSON-API type tag for link types. -/
def EndpointWorkItemLinkTypes : String := "workitemlinktypes"

/-- `ConvertLinkTypeFromModel` (type.go lines 163-211). The absolute self
URL of the owning space is computed from the HTTP request by collaborators
outside this core; it is passed in as `spaceSelfURL`. -/
def ConvertLinkTypeFromModel (spaceSelfURL : String) (t : WorkItemLinkType) :
    WorkItemLinkTypeSingle :=
  { data := some
      { type := EndpointWorkItemLinkTypes
        id := some t.id
        attributes := some
          { name := some t.name
            description := t.description
            version := some t.version
            forwardName := some t.forwardName
            reverseName := some t.reverseName
            topology := some t.topology }
        relationships := some
          { linkCategory := some
              { data := some { type := EndpointWorkItemLinkCategories, id := t.linkCategoryID } }
            sourceType := some
              { data := some { type := EndpointWorkItemTypes, id := t.sourceTypeID } }
            targetType := some
              { data := some { type := EndpointWorkItemTypes, id := t.targetTypeID } }
            space := some
              { data := some { type := some "spaces", id := t.spaceID }
                links := some { self := some spaceSelfURL } } } } }

/-!
`ConvertLinkTypeToModel` (type.go lines 215-288) mutates `out` in place and
returns early on the first error. The embedding passes the state of `out`
explicitly: the result is the pair of the returned error (`none` = Go `nil`)
and the final state of `out`. The sequential statement blocks of the Go
function become small step functions chained with `andThen` (early return).
The Go `attrs != nil` and `rel != nil` guards on lines 233 and 274-283 are
always true at that point because of the nil checks on lines 219-224.
-/

/-- Early-return sequencing of the in-place update steps. -/
def andThen (s : Option BadParameterError × WorkItemLinkType)
    (f : WorkItemLinkType → Option BadParameterError × WorkItemLinkType) :
    Option BadParameterError × WorkItemLinkType :=
  match s with
  | (some e, o) => (some e, o)
  | (none, o) => f o

/-- Lines 229-231: `if in.Data.ID != nil { out.ID = *in.Data.ID }`. -/
def applyDataID (oid : Option UUID) (o : WorkItemLinkType) : WorkItemLinkType :=
  match oid with
  | some v => { o with id := v }
  | none => o

/-- Lines 234-240: a present name must not be empty, then overwrites. -/
def mergeName (attrs : WorkItemLinkTypeAttributes) (o : WorkItemLinkType) :
    Option BadParameterError × WorkItemLinkType :=
  match attrs.name with
  | some n =>
    if n = "" then (some (NewBadParameterError "data.attributes.name" n), o)
    else (none, { o with name := n })
  | none => (none, o)

/-- Lines 242-244: a present description overwrites. -/
def mergeDescription (attrs : WorkItemLinkTypeAttributes) (o : WorkItemLinkType) :
    Option BadParameterError × WorkItemLinkType :=
  match attrs.description with
  | some dsc => (none, { o with description := some dsc })
  | none => (none, o)

/-- Lines 246-248: a present version overwrites. -/
def mergeVersion (attrs : WorkItemLinkTypeAttributes) (o : WorkItemLinkType) :
    Option BadParameterError × WorkItemLinkType :=
  match attrs.version with
  | some v => (none, { o with version := v })
  | none => (none, o)

/-- Lines 250-256: a present forward name must not be empty, then overwrites. -/
def mergeForwardName (attrs : WorkItemLinkTypeAttributes) (o : WorkItemLinkType) :
    Option BadParameterError × WorkItemLinkType :=
  match attrs.forwardName with
  | some n =>
    if n = "" then (some (NewBadParameterError "data.attributes.forward_name" n), o)
    else (none, { o with forwardName := n })
  | none => (none, o)

/-- Lines 258-264: a present reverse name must not be empty, then overwrites. -/
def mergeReverseName (attrs : WorkItemLinkTypeAttributes) (o : WorkItemLinkType) :
    Option BadParameterError × WorkItemLinkType :=
  match attrs.reverseName with
  | some n =>
    if n = "" then (some (NewBadParameterError "data.attributes.reverse_name" n), o)
    else (none, { o with reverseName := n })
  | none => (none, o)

/-- Lines 266-271: a present topology must be valid, then overwrites. -/
def mergeTopology (attrs : WorkItemLinkTypeAttributes) (o : WorkItemLinkType) :
    Option BadParameterError × WorkItemLinkType :=
  match attrs.topology with
  | some tp =>
    match CheckValidTopology tp with
    | some err => (some err, o)
    | none => (none, { o with topology := tp })
  | none => (none, o)

/-- Lines 274-285: the four relationship merges (never fail). -/
def applyRelationships (rel : WorkItemLinkTypeRelationships) (o : WorkItemLinkType) :
    WorkItemLinkType :=
  let o := match rel.linkCategory with
    | some lc =>
      match lc.data with
      | some dd => { o with linkCategoryID := dd.id }
      | none => o
    | none => o
  let o := match rel.sourceType with
    | some st =>
      match st.data with
      | some dd => { o with sourceTypeID := dd.id }
      | none => o
    | none => o
  let o := match rel.targetType with
    | some tt =>
      match tt.data with
      | some dd => { o with targetTypeID := dd.id }
      | none => o
    | none => o
  let o := match rel.space with
    | some sp =>
      match sp.data with
      | some dd => { o with spaceID := dd.id }
      | none => o
    | none => o
  o

/-- `ConvertLinkTypeToModel` (type.go lines 215-288): the returned error and
the final state of `out`. -/
def ConvertLinkTypeToModel (i : WorkItemLinkTypeSingle) (out : WorkItemLinkType) :
    Option BadParameterError × WorkItemLinkType :=
  match i.data with
  | none => (some ((NewBadParameterError "data" "<nil>").Expected "not <nil>"), out)
  | some d =>
    match d.attributes with
    | none => (some ((NewBadParameterError "data.attributes" "<nil>").Expected "not <nil>"), out)
    | some attrs =>
      match d.relationships with
      | none =>
        (some ((NewBadParameterError "data.relationships" "<nil>").Expected "not <nil>"), out)
      | some rel =>
        andThen (mergeName attrs (applyDataID d.id out)) fun o =>
        andThen (mergeDescription attrs o) fun o =>
        andThen (mergeVersion attrs o) fun o =>
        andThen (mergeForwardName attrs o) fun o =>
        andThen (mergeReverseName attrs o) fun o =>
        andThen (mergeTopology attrs o) fun o =>
        (none, applyRelationships rel o)

/-!  Helper lemmas shared by the claim theorems. -/

theorem strPtrIsNilOrContentIsEqual_iff (l r : Option String) :
    strPtrIsNilOrContentIsEqual l r = true ↔ l = r := by
  cases l <;> cases r <;> simp [strPtrIsNilOrContentIsEqual]

theorem Lifecycle.Equal_iff (l r : Lifecycle) : l.Equal r = true ↔ l = r := by
  simp [Lifecycle.Equal]

theorem WorkItemLinkType.Equal_true_iff (t u : WorkItemLinkType) :
    t.Equal u = true ↔ t = u := by
  constructor
  · intro h
    unfold WorkItemLinkType.Equal at h
    by_cases h1 : t.lifecycle.Equal u.lifecycle = true
    case neg => rw [if_pos h1] at h; exact Bool.noConfusion h
    rw [if_neg (not_not_intro h1)] at h
    by_cases h2 : t.id = u.id
    case neg => rw [if_pos h2] at h; exact Bool.noConfusion h
    rw [if_neg (not_not_intro h2)] at h
    by_cases h3 : t.name = u.name
    case neg => rw [if_pos h3] at h; exact Bool.noConfusion h
    rw [if_neg (not_not_intro h3)] at h
    by_cases h4 : t.version = u.version
    case neg => rw [if_pos h4] at h; exact Bool.noConfusion h
    rw [if_neg (not_not_intro h4)] at h
    by_cases h5 : strPtrIsNilOrContentIsEqual t.description u.description = true
    case neg => rw [if_pos h5] at h; exact Bool.noConfusion h
    rw [if_neg (not_not_intro h5)] at h
    by_cases h6 : t.topology = u.topology
    case neg => rw [if_pos h6] at h; exact Bool.noConfusion h
    rw [if_neg (not_not_intro h6)] at h
    by_cases h7 : t.sourceTypeID = u.sourceTypeID
    case neg => rw [if_pos h7] at h; exact Bool.noConfusion h
    rw [if_neg (not_not_intro h7)] at h
    by_cases h8 : t.targetTypeID = u.targetTypeID
    case neg => rw [if_pos h8] at h; exact Bool.noConfusion h
    rw [if_neg (not_not_intro h8)] at h
    by_cases h9 : t.forwardName = u.forwardName
    case neg => rw [if_pos h9] at h; exact Bool.noConfusion h
    rw [if_neg (not_not_intro h9)] at h
    by_cases h10 : t.reverseName = u.reverseName
    case neg => rw [if_pos h10] at h; exact Bool.noConfusion h
    rw [if_neg (not_not_intro h10)] at h
    by_cases h11 : t.linkCategoryID = u.linkCategoryID
    case neg => rw [if_pos h11] at h; exact Bool.noConfusion h
    rw [if_neg (not_not_intro h11)] at h
    by_cases h12 : t.spaceID = u.spaceID
    case neg => rw [if_pos h12] at h; exact Bool.noConfusion h
    have e1 : t.lifecycle = u.lifecycle := (Lifecycle.Equal_iff _ _).mp h1
    have e5 : t.description = u.description := (strPtrIsNilOrContentIsEqual_iff _ _).mp h5
    cases t
    cases u
    simp only [WorkItemLinkType.mk.injEq]
    exact ⟨e1, h2, h3, e5, h4, h6, h7, h8, h9, h10, h11, h12⟩
  · intro h
    subst h
    simp [WorkItemLinkType.Equal, Lifecycle.Equal, strPtrIsNilOrContentIsEqual_iff]

theorem CheckValidTopology_none_iff (t : String) :
    CheckValidTopology t = none ↔
      (t = TopologyNetwork ∨ t = TopologyDirectedNetwork ∨
       t = TopologyDependency ∨ t = TopologyTree) := by
  unfold CheckValidTopology
  split_ifs with h
  · simp only [reduceCtorEq, false_iff]
    tauto
  · simp only [true_iff]
    tauto

theorem CheckValidForCreation_none_iff (t : WorkItemLinkType) :
    CheckValidForCreation t = none ↔
      (t.name ≠ "" ∧ t.sourceTypeID ≠ uuidNil ∧ t.targetTypeID ≠ uuidNil ∧
       t.forwardName ≠ "" ∧ t.reverseName ≠ "" ∧ CheckValidTopology t.topology = none ∧
       t.linkCategoryID ≠ uuidNil ∧ t.spaceID ≠ uuidNil) := by
  unfold CheckValidForCreation
  cases htc : CheckValidTopology t.topology <;> split_ifs <;> simp_all

theorem andThen_none (o : WorkItemLinkType)
    (f : WorkItemLinkType → Option BadParameterError × WorkItemLinkType) :
    andThen (none, o) f = f o := rfl

theorem andThen_some (e : BadParameterError) (o : WorkItemLinkType)
    (f : WorkItemLinkType → Option BadParameterError × WorkItemLinkType) :
    andThen (some e, o) f = (some e, o) := rfl

theorem applyDataID_eq (oid : Option UUID) (o : WorkItemLinkType) :
    applyDataID oid o = { o with id := oid.getD o.id } := by
  cases oid <;> rfl

theorem mergeName_err {attrs : WorkItemLinkTypeAttributes} (o : WorkItemLinkType)
    (h : attrs.name = some "") :
    mergeName attrs o = (some (NewBadParameterError "data.attributes.name" ""), o) := by
  simp [mergeName, h]

theorem mergeName_ok {attrs : WorkItemLinkTypeAttributes} (o : WorkItemLinkType)
    (h : attrs.name ≠ some "") :
    mergeName attrs o = (none, { o with name := attrs.name.getD o.name }) := by
  cases hn : attrs.name with
  | none => unfold mergeName; rw [hn]; rfl
  | some n =>
    have hne : n ≠ "" := by
      intro he
      exact h (by rw [hn, he])
    simp [mergeName, hn, hne]

theorem mergeDescription_eq (attrs : WorkItemLinkTypeAttributes) (o : WorkItemLinkType) :
    mergeDescription attrs o =
      (none, { o with description := attrs.description.or o.description }) := by
  cases h : attrs.description <;> simp [mergeDescription, h, Option.or]

theorem mergeVersion_eq (attrs : WorkItemLinkTypeAttributes) (o : WorkItemLinkType) :
    mergeVersion attrs o = (none, { o with version := attrs.version.getD o.version }) := by
  cases h : attrs.version <;> simp [mergeVersion, h]

theorem mergeForwardName_err {attrs : WorkItemLinkTypeAttributes} (o : WorkItemLinkType)
    (h : attrs.forwardName = some "") :
    mergeForwardName attrs o =
      (some (NewBadParameterError "data.attributes.forward_name" ""), o) := by
  simp [mergeForwardName, h]

theorem mergeForwardName_ok {attrs : WorkItemLinkTypeAttributes} (o : WorkItemLinkType)
    (h : attrs.forwardName ≠ some "") :
    mergeForwardName attrs o =
      (none, { o with forwardName := attrs.forwardName.getD o.forwardName }) := by
  cases hn : attrs.forwardName with
  | none => unfold mergeForwardName; rw [hn]; rfl
  | some n =>
    have hne : n ≠ "" := by
      intro he
      exact h (by rw [hn, he])
    simp [mergeForwardName, hn, hne]

theorem mergeReverseName_err {attrs : WorkItemLinkTypeAttributes} (o : WorkItemLinkType)
    (h : attrs.reverseName = some "") :
    mergeReverseName attrs o =
      (some (NewBadParameterError "data.attributes.reverse_name" ""), o) := by
  simp [mergeReverseName, h]

theorem mergeReverseName_ok {attrs : WorkItemLinkTypeAttributes} (o : WorkItemLinkType)
    (h : attrs.reverseName ≠ some "") :
    mergeReverseName attrs o =
      (none, { o with reverseName := attrs.reverseName.getD o.reverseName }) := by
  cases hn : attrs.reverseName with
  | none => unfold mergeReverseName; rw [hn]; rfl
  | some n =>
    have hne : n ≠ "" := by
      intro he
      exact h (by rw [hn, he])
    simp [mergeReverseName, hn, hne]

theorem mergeTopology_absent {attrs : WorkItemLinkTypeAttributes} (o : WorkItemLinkType)
    (h : attrs.topology = none) :
    mergeTopology attrs o = (none, o) := by
  simp [mergeTopology, h]

theorem mergeTopology_err {attrs : WorkItemLinkTypeAttributes} {tp : String}
    {e : BadParameterError} (o : WorkItemLinkType)
    (h : attrs.topology = some tp) (htc : CheckValidTopology tp = some e) :
    mergeTopology attrs o = (some e, o) := by
  simp [mergeTopology, h, htc]

theorem mergeTopology_ok {attrs : WorkItemLinkTypeAttributes} {tp : String}
    (o : WorkItemLinkType)
    (h : attrs.topology = some tp) (htc : CheckValidTopology tp = none) :
    mergeTopology attrs o = (none, { o with topology := tp }) := by
  simp [mergeTopology, h, htc]

theorem applyRelationships_eq (rel : WorkItemLinkTypeRelationships) (o : WorkItemLinkType) :
    applyRelationships rel o =
      { o with
        linkCategoryID :=
          (((rel.linkCategory.bind fun lc => lc.data).map fun dd => dd.id).getD o.linkCategoryID)
        sourceTypeID :=
          (((rel.sourceType.bind fun st => st.data).map fun dd => dd.id).getD o.sourceTypeID)
        targetTypeID :=
          (((rel.targetType.bind fun tt => tt.data).map fun dd => dd.id).getD o.targetTypeID)
        spaceID :=
          (((rel.space.bind fun sp => sp.data).map fun dd => dd.id).getD o.spaceID) } := by
  unfold applyRelationships
  rcases rel with ⟨lc, st, tt, sp⟩
  rcases lc with _ | ⟨_ | dd1⟩ <;> rcases st with _ | ⟨_ | dd2⟩ <;>
    rcases tt with _ | ⟨_ | dd3⟩ <;> rcases sp with _ | ⟨_ | dd4, lk⟩ <;> rfl

/-- The merged candidate record produced by a successful conversion: every
attribute present in the update overwrites, every absent one keeps the value
in `out`. -/
def mergedRecord (oid : Option UUID) (attrs : WorkItemLinkTypeAttributes)
    (rel : WorkItemLinkTypeRelationships) (out : WorkItemLinkType) : WorkItemLinkType :=
  applyRelationships rel
    { out with
      id := oid.getD out.id
      name := attrs.name.getD out.name
      description := attrs.description.or out.description
      version := attrs.version.getD out.version
      forwardName := attrs.forwardName.getD out.forwardName
      reverseName := attrs.reverseName.getD out.reverseName
      topology := attrs.topology.getD out.topology }

theorem ConvertLinkTypeToModel_success_iff (i : WorkItemLinkTypeSingle)
    (out r : WorkItemLinkType) (d : WorkItemLinkTypeData)
    (attrs : WorkItemLinkTypeAttributes) (rel : WorkItemLinkTypeRelationships)
    (hd : i.data = some d) (ha : d.attributes = some attrs)
    (hrel : d.relationships = some rel) :
    ConvertLinkTypeToModel i out = (none, r) ↔
      (attrs.name ≠ some "" ∧ attrs.forwardName ≠ some "" ∧ attrs.reverseName ≠ some "" ∧
       (∀ tp, attrs.topology = some tp → CheckValidTopology tp = none) ∧
       r = mergedRecord d.id attrs rel out) := by
  cases i with
  | mk da =>
    cases d with
    | mk ty oid oa orels =>
      simp only at hd
      subst hd
      simp only at ha hrel
      subst ha
      subst hrel
      simp only [ConvertLinkTypeToModel, mergedRecord]
      by_cases hn : attrs.name = some ""
      · rw [mergeName_err _ hn, andThen_some]
        simp [hn]
      · rw [mergeName_ok _ hn, andThen_none, mergeDescription_eq, andThen_none,
          mergeVersion_eq, andThen_none]
        by_cases hf : attrs.forwardName = some ""
        · rw [mergeForwardName_err _ hf, andThen_some]
          simp [hf]
        · rw [mergeForwardName_ok _ hf, andThen_none]
          by_cases hrv : attrs.reverseName = some ""
          · rw [mergeReverseName_err _ hrv, andThen_some]
            simp [hrv]
          · rw [mergeReverseName_ok _ hrv, andThen_none]
            cases ht : attrs.topology with
            | none =>
              rw [mergeTopology_absent _ ht, andThen_none]
              simp [applyDataID_eq, hn, hf, hrv, ht, eq_comm]
            | some tp =>
              cases htc : CheckValidTopology tp with
              | none =>
                rw [mergeTopology_ok _ ht htc, andThen_none]
                simp [applyDataID_eq, hn, hf, hrv, ht, htc, eq_comm]
              | some e =>
                rw [mergeTopology_err _ ht htc, andThen_some]
                simp [ht, htc]

/-!  Concrete sample records used by witnesses and counterexamples. -/

def lc0 : Lifecycle := { createdAt := 0, updatedAt := 0, deletedAt := none }

def tValid : WorkItemLinkType :=
  { lifecycle := lc0, id := 1, name := "Bug blocker", description := some "blocks",
    version := 0, topology := "network", sourceTypeID := 2, targetTypeID := 3,
    forwardName := "blocks", reverseName := "blocked by", linkCategoryID := 4, spaceID := 5 }

def tEmpty : WorkItemLinkType :=
  { lifecycle := lc0, id := 0, name := "", description := none, version := 0,
    topology := "", sourceTypeID := 0, targetTypeID := 0, forwardName := "",
    reverseName := "", linkCategoryID := 0, spaceID := 0 }

/-!  Claim theorems. -/

/-- C1, counterexample: on a link type whose only invalid field (after `name`)
is the source type identifier, the reported BadParameter error names
`source_type_name`, not the field `source_type_id` named by the claim. -/
theorem claim1_counterexample :
    ({ tEmpty with name := "x" } : WorkItemLinkType).name ≠ "" ∧
    ({ tEmpty with name := "x" } : WorkItemLinkType).sourceTypeID = uuidNil ∧
    (CheckValidForCreation { tEmpty with name := "x" }).map (fun e => e.param) =
      some "source_type_name" ∧
    (CheckValidForCreation { tEmpty with name := "x" }).map (fun e => e.param) ≠
      some "source_type_id" := by
  refine ⟨by decide, by decide, by decide, by decide⟩

/-- C1 (amended): `CheckValidForCreation` validates, in order, name,
source type id, target type id, forward name, reverse name, topology,
link category id and space id, returns `none` exactly when all are
non-empty/non-nil/valid, and on failure returns the single BadParameter
error of the first failing field (fail-fast, never an aggregate); the
reported parameter names are `name`, `source_type_name`, `target_type_name`,
`forward_name`, `reverse_name`, `topolgy`, `link_category_id`, `space_id`. -/
theorem claim1_checkValidForCreation_fail_fast (t : WorkItemLinkType) :
    (CheckValidForCreation t = none ↔
      (t.name ≠ "" ∧ t.sourceTypeID ≠ uuidNil ∧ t.targetTypeID ≠ uuidNil ∧
       t.forwardName ≠ "" ∧ t.reverseName ≠ "" ∧ CheckValidTopology t.topology = none ∧
       t.linkCategoryID ≠ uuidNil ∧ t.spaceID ≠ uuidNil)) ∧
    (t.name = "" → CheckValidForCreation t = some (NewBadParameterError "name" t.name)) ∧
    (t.name ≠ "" → t.sourceTypeID = uuidNil →
      CheckValidForCreation t =
        some (NewBadParameterError "source_type_name" (toString t.sourceTypeID))) ∧
    (t.name ≠ "" → t.sourceTypeID ≠ uuidNil → t.targetTypeID = uuidNil →
      CheckValidForCreation t =
        some (NewBadParameterError "target_type_name" (toString t.targetTypeID))) ∧
    (t.name ≠ "" → t.sourceTypeID ≠ uuidNil → t.targetTypeID ≠ uuidNil →
      t.forwardName = "" →
      CheckValidForCreation t = some (NewBadParameterError "forward_name" t.forwardName)) ∧
    (t.name ≠ "" → t.sourceTypeID ≠ uuidNil → t.targetTypeID ≠ uuidNil →
      t.forwardName ≠ "" → t.reverseName = "" →
      CheckValidForCreation t = some (NewBadParameterError "reverse_name" t.reverseName)) ∧
    (∀ e, t.name ≠ "" → t.sourceTypeID ≠ uuidNil → t.targetTypeID ≠ uuidNil →
      t.forwardName ≠ "" → t.reverseName ≠ "" → CheckValidTopology t.topology = some e →
      CheckValidForCreation t = some e) ∧
    (t.name ≠ "" → t.sourceTypeID ≠ uuidNil → t.targetTypeID ≠ uuidNil →
      t.forwardName ≠ "" → t.reverseName ≠ "" → CheckValidTopology t.topology = none →
      t.linkCategoryID = uuidNil →
      CheckValidForCreation t =
        some (NewBadParameterError "link_category_id" (toString t.linkCategoryID))) ∧
    (t.name ≠ "" → t.sourceTypeID ≠ uuidNil → t.targetTypeID ≠ uuidNil →
      t.forwardName ≠ "" → t.reverseName ≠ "" → CheckValidTopology t.topology = none →
      t.linkCategoryID ≠ uuidNil → t.spaceID = uuidNil →
      CheckValidForCreation t =
        some (NewBadParameterError "space_id" (toString t.spaceID))) := by
  unfold CheckValidForCreation
  cases htc : CheckValidTopology t.topology <;> split_ifs <;> simp_all

/-- C1, witness for the amended claim at concrete inputs. -/
theorem claim1_witness :
    CheckValidForCreation tValid = none ∧
    CheckValidForCreation { tValid with reverseName := "" } =
      some (NewBadParameterError "reverse_name" "") := by
  constructor
  · exact (claim1_checkValidForCreation_fail_fast tValid).1.mpr (by decide)
  · exact (claim1_checkValidForCreation_fail_fast { tValid with reverseName := "" }).2.2.2.2.2.1
      (by decide) (by decide) (by decide) (by decide) (by decide)

/-- C2: the claim is right and the code has a slip: `CheckValidTopology`
accepts exactly the four literals and rejects everything else with the
expected value set, but the error's parameter name is the misspelled
`"topolgy"`, so it does not identify the offending field `topology`. -/
theorem claim2_topolgy_misspelled :
    CheckValidTopology "network" = none ∧
    CheckValidTopology "directed_network" = none ∧
    CheckValidTopology "dependency" = none ∧
    CheckValidTopology "tree" = none ∧
    CheckValidTopology "" ≠ none ∧
    CheckValidTopology "Network" ≠ none ∧
    CheckValidTopology "foo" =
      some ((NewBadParameterError "topolgy" "foo").Expected
        "network|directed_network|dependency|tree") ∧
    "topolgy" ≠ "topology" := by
  refine ⟨by decide, by decide, by decide, by decide, by decide, by decide, by decide, by decide⟩

/-- C6: `WorkItemLinkType.Equal` is reflexive and symmetric, is true exactly
on structurally equal records (hence sensitive to every attribute, lifecycle
metadata included), and records with different identifiers are never equal. -/
theorem claim6_equal_properties (t u : WorkItemLinkType) :
    (t.Equal t = true) ∧
    (t.Equal u = u.Equal t) ∧
    (t.Equal u = true ↔ t = u) ∧
    (t.id ≠ u.id → t.Equal u = false) := by
  refine ⟨(WorkItemLinkType.Equal_true_iff t t).mpr rfl, ?_, WorkItemLinkType.Equal_true_iff t u, ?_⟩
  · by_cases h : t = u
    · subst h
      rfl
    · have h1 : t.Equal u = false := by
        cases hb : t.Equal u
        · rfl
        · exact absurd ((WorkItemLinkType.Equal_true_iff t u).mp hb) h
      have h2 : u.Equal t = false := by
        cases hb : u.Equal t
        · rfl
        · exact absurd ((WorkItemLinkType.Equal_true_iff u t).mp hb).symm h
      rw [h1, h2]
  · intro hid
    cases hb : t.Equal u
    · rfl
    · exact absurd (congrArg WorkItemLinkType.id
        ((WorkItemLinkType.Equal_true_iff t u).mp hb)) hid

/-- C6, witness: the properties at concrete records. -/
theorem claim6_witness :
    tValid.Equal tValid = true ∧ tValid.Equal tEmpty = false := by
  exact ⟨(claim6_equal_properties tValid tValid).1,
    (claim6_equal_properties tValid tEmpty).2.2.2 (by decide)⟩

/-- C7: two optional description values compare equal under
`strPtrIsNilOrContentIsEqual` exactly when both are unset or both are set
with identical content; one set and one unset always compare unequal. -/
theorem claim7_description_equality (l r : Option String) :
    strPtrIsNilOrContentIsEqual l r = true ↔
      ((l = none ∧ r = none) ∨ ∃ s, l = some s ∧ r = some s) := by
  cases l with
  | none => cases r <;> simp [strPtrIsNilOrContentIsEqual]
  | some a =>
    cases r with
    | none => simp [strPtrIsNilOrContentIsEqual]
    | some b =>
      simp only [strPtrIsNilOrContentIsEqual, beq_iff_eq, reduceCtorEq, and_self, false_and,
        false_or, Option.some.injEq]
      constructor
      · rintro rfl
        exact ⟨a, rfl, rfl⟩
      · rintro ⟨s, rfl, rfl⟩
        rfl

def attrsEmpty : WorkItemLinkTypeAttributes := {}

def relEmpty : WorkItemLinkTypeRelationships := {}

def iEmptyParts : WorkItemLinkTypeSingle :=
  { data := some { type := "workitemlinktypes", attributes := some attrsEmpty,
                   relationships := some relEmpty } }

def attrs3 : WorkItemLinkTypeAttributes := { topology := some "tree" }

def d3 : WorkItemLinkTypeData :=
  { type := "workitemlinktypes", attributes := some attrs3, relationships := some relEmpty }

def i3 : WorkItemLinkTypeSingle := { data := some d3 }

def attrs5 : WorkItemLinkTypeAttributes := { name := some "" }

def d5 : WorkItemLinkTypeData :=
  { type := "workitemlinktypes", id := some 9, attributes := some attrs5,
    relationships := some relEmpty }

def i5 : WorkItemLinkTypeSingle := { data := some d5 }

def attrsFwdEmpty : WorkItemLinkTypeAttributes := { forwardName := some "" }

def dFwdEmpty : WorkItemLinkTypeData :=
  { type := "workitemlinktypes", attributes := some attrsFwdEmpty,
    relationships := some relEmpty }

def iFwdEmpty : WorkItemLinkTypeSingle := { data := some dFwdEmpty }

def dNoRels : WorkItemLinkTypeData :=
  { type := "workitemlinktypes", attributes := some attrsEmpty }

def iNoRels : WorkItemLinkTypeSingle := { data := some dNoRels }

def tNoDesc : WorkItemLinkType := { tValid with description := none }

def outStale : WorkItemLinkType := { tValid with description := some "stale" }

/-- C3: a successful `ConvertLinkTypeToModel` overwrites only the attributes
and relationship identifiers explicitly present (non-nil) in the update;
every absent attribute (and the lifecycle metadata, which the representation
does not carry) keeps exactly its prior stored value. -/
theorem claim3_convert_frame (i : WorkItemLinkTypeSingle) (out r : WorkItemLinkType)
    (d : WorkItemLinkTypeData) (attrs : WorkItemLinkTypeAttributes)
    (rel : WorkItemLinkTypeRelationships)
    (hd : i.data = some d) (ha : d.attributes = some attrs)
    (hrel : d.relationships = some rel)
    (hsucc : ConvertLinkTypeToModel i out = (none, r)) :
    r.lifecycle = out.lifecycle ∧
    (d.id = none → r.id = out.id) ∧
    (attrs.name = none → r.name = out.name) ∧
    (attrs.description = none → r.description = out.description) ∧
    (attrs.version = none → r.version = out.version) ∧
    (attrs.forwardName = none → r.forwardName = out.forwardName) ∧
    (attrs.reverseName = none → r.reverseName = out.reverseName) ∧
    (attrs.topology = none → r.topology = out.topology) ∧
    (rel.linkCategory.bind (fun lc => lc.data) = none → r.linkCategoryID = out.linkCategoryID) ∧
    (rel.sourceType.bind (fun st => st.data) = none → r.sourceTypeID = out.sourceTypeID) ∧
    (rel.targetType.bind (fun tt => tt.data) = none → r.targetTypeID = out.targetTypeID) ∧
    (rel.space.bind (fun sp => sp.data) = none → r.spaceID = out.spaceID) := by
  obtain ⟨-, -, -, -, rfl⟩ :=
    (ConvertLinkTypeToModel_success_iff i out r d attrs rel hd ha hrel).mp hsucc
  refine ⟨?_, ?_, ?_, ?_, ?_, ?_, ?_, ?_, ?_, ?_, ?_, ?_⟩
  · simp [mergedRecord, applyRelationships_eq]
  · intro h0
    simp [mergedRecord, applyRelationships_eq, h0]
  · intro h0
    simp [mergedRecord, applyRelationships_eq, h0]
  · intro h0
    simp [mergedRecord, applyRelationships_eq, h0, Option.or]
  · intro h0
    simp [mergedRecord, applyRelationships_eq, h0]
  · intro h0
    simp [mergedRecord, applyRelationships_eq, h0]
  · intro h0
    simp [mergedRecord, applyRelationships_eq, h0]
  · intro h0
    simp [mergedRecord, applyRelationships_eq, h0]
  · intro h0
    simp [mergedRecord, applyRelationships_eq, h0]
  · intro h0
    simp [mergedRecord, applyRelationships_eq, h0]
  · intro h0
    simp [mergedRecord, applyRelationships_eq, h0]
  · intro h0
    simp [mergedRecord, applyRelationships_eq, h0]

/-- C3, witness: the spec's §8 scenario, a partial update presenting only
`topology = "tree"` against a fully-valid stored record. -/
theorem claim3_witness :
    ConvertLinkTypeToModel i3 tValid = (none, { tValid with topology := "tree" }) ∧
    ({ tValid with topology := "tree" } : WorkItemLinkType).name = tValid.name := by
  have hsucc : ConvertLinkTypeToModel i3 tValid = (none, { tValid with topology := "tree" }) := by
    decide
  have h := claim3_convert_frame i3 tValid { tValid with topology := "tree" }
    d3 attrs3 relEmpty rfl rfl rfl hsucc
  exact ⟨hsucc, h.2.2.1 rfl⟩

/-- C4, counterexample: an update with present but empty attribute and
relationship parts merges successfully onto an entirely invalid record, and
the merged record still fails creation validation — the conversion did not
re-run it. -/
theorem claim4_counterexample :
    ConvertLinkTypeToModel iEmptyParts tEmpty = (none, tEmpty) ∧
    CheckValidForCreation tEmpty = some (NewBadParameterError "name" "") := by
  refine ⟨by decide, by decide⟩

/-- C4 (amended): `ConvertLinkTypeToModel` validates only the attributes
present in the update — a present name/forward name/reverse name must be
non-empty and a present topology must be one of the four literals — and it
succeeds exactly under those conditions; it does not re-run full creation
validation on the merged record. -/
theorem claim4_convert_validates_only_present (i : WorkItemLinkTypeSingle)
    (out : WorkItemLinkType) :
    (∃ r, ConvertLinkTypeToModel i out = (none, r)) ↔
      (∃ d attrs rel, i.data = some d ∧ d.attributes = some attrs ∧
        d.relationships = some rel ∧ attrs.name ≠ some "" ∧ attrs.forwardName ≠ some "" ∧
        attrs.reverseName ≠ some "" ∧
        (∀ tp, attrs.topology = some tp → CheckValidTopology tp = none)) := by
  cases i with
  | mk da =>
    cases da with
    | none => simp [ConvertLinkTypeToModel]
    | some d =>
      cases d with
      | mk ty oid oa orels =>
        cases oa with
        | none => simp [ConvertLinkTypeToModel]
        | some attrs =>
          cases orels with
          | none => simp [ConvertLinkTypeToModel]
          | some rel =>
            constructor
            · rintro ⟨r, hr⟩
              have h := (ConvertLinkTypeToModel_success_iff _ out r
                ⟨ty, oid, some attrs, some rel⟩ attrs rel rfl rfl rfl).mp hr
              exact ⟨⟨ty, oid, some attrs, some rel⟩, attrs, rel, rfl, rfl, rfl,
                h.1, h.2.1, h.2.2.1, h.2.2.2.1⟩
            · rintro ⟨d', attrs', rel', hd', ha', hr', h1, h2, h3, h4⟩
              injection hd' with hdd
              subst hdd
              simp only [Option.some.injEq] at ha' hr'
              subst ha'
              subst hr'
              exact ⟨mergedRecord oid attrs rel out,
                (ConvertLinkTypeToModel_success_iff _ out _
                  ⟨ty, oid, some attrs, some rel⟩ attrs rel rfl rfl rfl).mpr
                  ⟨h1, h2, h3, h4, rfl⟩⟩

/-- C5, counterexample: a failing conversion (empty present name) has already
overwritten the record's ID in place, so the record is not left as it was. -/
theorem claim5_counterexample :
    ConvertLinkTypeToModel i5 tValid =
      (some (NewBadParameterError "data.attributes.name" ""), { tValid with id := 9 }) ∧
    ({ tValid with id := 9 } : WorkItemLinkType) ≠ tValid := by
  refine ⟨by decide, by decide⟩

/-- C5 (amended): `ConvertLinkTypeToModel` mutates the record as it merges,
so a failed conversion can leave earlier overwrites (the ID and
earlier-merged attributes) in place; but a failed conversion never changes
the lifecycle, the topology, or any relationship identifier, because those
are written only after every check has passed. -/
theorem claim5_failed_convert_frame (i : WorkItemLinkTypeSingle) (out : WorkItemLinkType)
    (e : BadParameterError) (r : WorkItemLinkType)
    (h : ConvertLinkTypeToModel i out = (some e, r)) :
    r.lifecycle = out.lifecycle ∧ r.topology = out.topology ∧
    r.linkCategoryID = out.linkCategoryID ∧ r.sourceTypeID = out.sourceTypeID ∧
    r.targetTypeID = out.targetTypeID ∧ r.spaceID = out.spaceID := by
  cases i with
  | mk da =>
    cases da with
    | none =>
      simp only [ConvertLinkTypeToModel, Prod.mk.injEq] at h
      obtain ⟨-, rfl⟩ := h
      exact ⟨rfl, rfl, rfl, rfl, rfl, rfl⟩
    | some d =>
      cases d with
      | mk ty oid oa orels =>
        cases oa with
        | none =>
          simp only [ConvertLinkTypeToModel, Prod.mk.injEq] at h
          obtain ⟨-, rfl⟩ := h
          exact ⟨rfl, rfl, rfl, rfl, rfl, rfl⟩
        | some attrs =>
          cases orels with
          | none =>
            simp only [ConvertLinkTypeToModel, Prod.mk.injEq] at h
            obtain ⟨-, rfl⟩ := h
            exact ⟨rfl, rfl, rfl, rfl, rfl, rfl⟩
          | some rel =>
            simp only [ConvertLinkTypeToModel] at h
            by_cases hn : attrs.name = some ""
            · rw [mergeName_err _ hn, andThen_some, Prod.mk.injEq] at h
              obtain ⟨-, rfl⟩ := h
              simp [applyDataID_eq]
            · rw [mergeName_ok _ hn, andThen_none, mergeDescription_eq, andThen_none,
                mergeVersion_eq, andThen_none] at h
              by_cases hf : attrs.forwardName = some ""
              · rw [mergeForwardName_err _ hf, andThen_some, Prod.mk.injEq] at h
                obtain ⟨-, rfl⟩ := h
                simp [applyDataID_eq]
              · rw [mergeForwardName_ok _ hf, andThen_none] at h
                by_cases hrv : attrs.reverseName = some ""
                · rw [mergeReverseName_err _ hrv, andThen_some, Prod.mk.injEq] at h
                  obtain ⟨-, rfl⟩ := h
                  simp [applyDataID_eq]
                · rw [mergeReverseName_ok _ hrv, andThen_none] at h
                  cases ht : attrs.topology with
                  | none =>
                    rw [mergeTopology_absent _ ht, andThen_none, Prod.mk.injEq] at h
                    exact absurd h.1 (by simp)
                  | some tp =>
                    cases htc : CheckValidTopology tp with
                    | none =>
                      rw [mergeTopology_ok _ ht htc, andThen_none, Prod.mk.injEq] at h
                      exact absurd h.1 (by simp)
                    | some e2 =>
                      rw [mergeTopology_err _ ht htc, andThen_some, Prod.mk.injEq] at h
                      obtain ⟨-, rfl⟩ := h
                      simp [applyDataID_eq]

/-- C5, witness: the fields the amended claim protects, at the
counterexample input. -/
theorem claim5_witness :
    ({ tValid with id := 9 } : WorkItemLinkType).topology = tValid.topology ∧
    ({ tValid with id := 9 } : WorkItemLinkType).spaceID = tValid.spaceID := by
  have h := claim5_failed_convert_frame i5 tValid
    (NewBadParameterError "data.attributes.name" "") { tValid with id := 9 } (by decide)
  exact ⟨h.2.1, h.2.2.2.2.2⟩

/-- C8: a present-but-empty name, forward name or reverse name is rejected
with a BadParameter error naming that attribute (first empty one wins), so
any successful conversion preserves non-emptiness of all three names. -/
theorem claim8_name_invariants (i : WorkItemLinkTypeSingle) (out : WorkItemLinkType)
    (d : WorkItemLinkTypeData) (attrs : WorkItemLinkTypeAttributes)
    (rel : WorkItemLinkTypeRelationships)
    (hd : i.data = some d) (ha : d.attributes = some attrs)
    (hrel : d.relationships = some rel) :
    (attrs.name = some "" →
      (ConvertLinkTypeToModel i out).1 =
        some (NewBadParameterError "data.attributes.name" "")) ∧
    (attrs.name ≠ some "" → attrs.forwardName = some "" →
      (ConvertLinkTypeToModel i out).1 =
        some (NewBadParameterError "data.attributes.forward_name" "")) ∧
    (attrs.name ≠ some "" → attrs.forwardName ≠ some "" → attrs.reverseName = some "" →
      (ConvertLinkTypeToModel i out).1 =
        some (NewBadParameterError "data.attributes.reverse_name" "")) ∧
    (∀ r, ConvertLinkTypeToModel i out = (none, r) →
      (out.name ≠ "" → r.name ≠ "") ∧
      (out.forwardName ≠ "" → r.forwardName ≠ "") ∧
      (out.reverseName ≠ "" → r.reverseName ≠ "")) := by
  cases i with
  | mk da =>
    cases d with
    | mk ty oid oa orels =>
      simp only at hd
      subst hd
      simp only at ha hrel
      subst ha
      subst hrel
      refine ⟨?_, ?_, ?_, ?_⟩
      · intro hn
        simp only [ConvertLinkTypeToModel]
        rw [mergeName_err _ hn, andThen_some]
      · intro hn hf
        simp only [ConvertLinkTypeToModel]
        rw [mergeName_ok _ hn, andThen_none, mergeDescription_eq, andThen_none,
          mergeVersion_eq, andThen_none, mergeForwardName_err _ hf, andThen_some]
      · intro hn hf hrv
        simp only [ConvertLinkTypeToModel]
        rw [mergeName_ok _ hn, andThen_none, mergeDescription_eq, andThen_none,
          mergeVersion_eq, andThen_none, mergeForwardName_ok _ hf, andThen_none,
          mergeReverseName_err _ hrv, andThen_some]
      · intro r hr
        obtain ⟨hn, hf, hrv, -, rfl⟩ :=
          (ConvertLinkTypeToModel_success_iff _ out r ⟨ty, oid, some attrs, some rel⟩
            attrs rel rfl rfl rfl).mp hr
        refine ⟨?_, ?_, ?_⟩
        · intro ho
          cases hna : attrs.name with
          | none => simpa [mergedRecord, applyRelationships_eq, hna] using ho
          | some n =>
            intro he
            apply hn
            rw [hna]
            have hne : n = "" := by
              simpa [mergedRecord, applyRelationships_eq, hna] using he
            rw [hne]
        · intro ho
          cases hna : attrs.forwardName with
          | none => simpa [mergedRecord, applyRelationships_eq, hna] using ho
          | some n =>
            intro he
            apply hf
            rw [hna]
            have hne : n = "" := by
              simpa [mergedRecord, applyRelationships_eq, hna] using he
            rw [hne]
        · intro ho
          cases hna : attrs.reverseName with
          | none => simpa [mergedRecord, applyRelationships_eq, hna] using ho
          | some n =>
            intro he
            apply hrv
            rw [hna]
            have hne : n = "" := by
              simpa [mergedRecord, applyRelationships_eq, hna] using he
            rw [hne]

/-- C8, witness: a present empty forward name (with a present non-empty
record otherwise) is rejected naming `data.attributes.forward_name`. -/
theorem claim8_witness :
    (ConvertLinkTypeToModel iFwdEmpty tValid).1 =
      some (NewBadParameterError "data.attributes.forward_name" "") := by
  exact (claim8_name_invariants iFwdEmpty tValid dFwdEmpty attrsFwdEmpty relEmpty
    rfl rfl rfl).2.1 (by decide) (by decide)

/-- C9: a nil top-level data, attributes or relationships part is rejected
(in that order) with a BadParameter error naming that part, and the output
record is left unchanged — no merge is attempted. -/
theorem claim9_nil_parts (i : WorkItemLinkTypeSingle) (out : WorkItemLinkType) :
    (i.data = none →
      ConvertLinkTypeToModel i out =
        (some ((NewBadParameterError "data" "<nil>").Expected "not <nil>"), out)) ∧
    (∀ d, i.data = some d → d.attributes = none →
      ConvertLinkTypeToModel i out =
        (some ((NewBadParameterError "data.attributes" "<nil>").Expected "not <nil>"), out)) ∧
    (∀ d attrs, i.data = some d → d.attributes = some attrs → d.relationships = none →
      ConvertLinkTypeToModel i out =
        (some ((NewBadParameterError "data.relationships" "<nil>").Expected "not <nil>"),
          out)) := by
  refine ⟨?_, ?_, ?_⟩
  · intro h
    simp [ConvertLinkTypeToModel, h]
  · intro d hd hattrs
    simp [ConvertLinkTypeToModel, hd, hattrs]
  · intro d attrs hd hattrs hrels
    simp [ConvertLinkTypeToModel, hd, hattrs, hrels]

/-- C9, witness: the nil-data and nil-relationships errors at concrete
inputs, with the record untouched. -/
theorem claim9_witness :
    ConvertLinkTypeToModel { data := none } tEmpty =
      (some ((NewBadParameterError "data" "<nil>").Expected "not <nil>"), tEmpty) ∧
    ConvertLinkTypeToModel iNoRels tEmpty =
      (some ((NewBadParameterError "data.relationships" "<nil>").Expected "not <nil>"),
        tEmpty) := by
  exact ⟨(claim9_nil_parts { data := none } tEmpty).1 rfl,
    (claim9_nil_parts iNoRels tEmpty).2.2 dNoRels attrsEmpty rfl rfl rfl⟩

/-- C10, counterexample: round-tripping a valid link type with an unset
description onto a record with a set description succeeds but keeps the
stale description, so the result is not Equal to the original. -/
theorem claim10_counterexample :
    CheckValidForCreation tNoDesc = none ∧
    outStale.lifecycle = tNoDesc.lifecycle ∧
    ConvertLinkTypeToModel (ConvertLinkTypeFromModel "https://api/spaces/5" tNoDesc) outStale =
      (none, outStale) ∧
    outStale.Equal tNoDesc = false := by
  refine ⟨by decide, by decide, by decide, by decide⟩

/-- C10 (amended): for a creation-valid `t`, converting to the external
representation and back onto a record with `t`'s lifecycle metadata — and,
when `t`'s description is unset, an unset description too — succeeds and
yields a record Equal to `t`. (The external representation cannot request
clearing a description, so an unset description leaves the output's
description in place.) -/
theorem claim10_roundtrip (url : String) (t out : WorkItemLinkType)
    (hvalid : CheckValidForCreation t = none)
    (hlc : out.lifecycle = t.lifecycle)
    (hdesc : t.description = none → out.description = none) :
    (ConvertLinkTypeToModel (ConvertLinkTypeFromModel url t) out).1 = none ∧
    ((ConvertLinkTypeToModel (ConvertLinkTypeFromModel url t) out).2).Equal t = true := by
  obtain ⟨hn, hs, htg, hf, hr, htop, hlcid, hsp⟩ :=
    (CheckValidForCreation_none_iff t).mp hvalid
  have hsucc : ConvertLinkTypeToModel (ConvertLinkTypeFromModel url t) out =
      (none, mergedRecord (some t.id)
        { name := some t.name, description := t.description, version := some t.version,
          forwardName := some t.forwardName, reverseName := some t.reverseName,
          topology := some t.topology }
        { linkCategory := some
            { data := some { type := EndpointWorkItemLinkCategories, id := t.linkCategoryID } }
          sourceType := some
            { data := some { type := EndpointWorkItemTypes, id := t.sourceTypeID } }
          targetType := some
            { data := some { type := EndpointWorkItemTypes, id := t.targetTypeID } }
          space := some
            { data := some { type := some "spaces", id := t.spaceID }
              links := some { self := some url } } }
        out) := by
    apply (ConvertLinkTypeToModel_success_iff _ out _ _ _ _ rfl rfl rfl).mpr
    refine ⟨by simp [hn], by simp [hf], by simp [hr], ?_, rfl⟩
    intro tp htp
    have htp' := Option.some.inj htp
    subst htp'
    exact htop
  rw [hsucc]
  refine ⟨rfl, ?_⟩
  rw [WorkItemLinkType.Equal_true_iff]
  obtain ⟨tl, tid, tn, td, tv, ttp, tsrc, ttgt, tf, trv, tlcid, tsp⟩ := t
  cases td with
  | none =>
    have h0 := hdesc rfl
    simp [mergedRecord, applyRelationships_eq, Option.or, hlc, h0]
  | some dsc =>
    simp [mergedRecord, applyRelationships_eq, Option.or, hlc]

/-- C10, witness: the amended round trip at a concrete valid link type. -/
theorem claim10_witness :
    (ConvertLinkTypeToModel (ConvertLinkTypeFromModel "https://api/spaces/5" tValid)
      tEmpty).1 = none ∧
    ((ConvertLinkTypeToModel (ConvertLinkTypeFromModel "https://api/spaces/5" tValid)
      tEmpty).2).Equal tValid = true := by
  exact claim10_roundtrip "https://api/spaces/5" tValid tEmpty (by decide) (by decide)
    (fun h => absurd h (by decide))

end AlmightyLink
